import Mathlib

/-!
Verification of the organization-scoped CRM controllers.

The definitions below are a shallow embedding of the Express controllers in
`apps/api/src/controllers` (customer, deal, pipeline, task, contactHistory).
The relational database is modelled as lists of rows; every controller method
becomes a pure function threading the database state and returning either a
payload or the `AppError` it throws.  SQL `NOW()` is modelled by an explicit
`now : Nat` parameter and `gen_random_uuid()` by an explicit `newId` argument.
`queryOne` on a filtered table is `List.find?`; `ORDER BY` is a stable
insertion sort on the ordering column; `LIMIT`/`OFFSET` are `take`/`drop`.

Request records mirror the zod-validated request bodies (`*.routes.ts`):
a field that may be absent is an `Option`, a field that may be absent or
`null` is an `Option (Option _)`.  JavaScript's `x || null` idiom (empty
string collapses to null) is `strOrNull`, `0 || null` is `intOrNull`, and a
JS truthiness test `if (x)` on an optional string is `jsTruthy`.

The `*WithRelations` SELECTs of the controllers additionally project display
columns (customer/assignee/owner names) out of the joined rows; the join
conditions are modelled faithfully, the display columns themselves carry no
information beyond the joined rows and are not re-projected here.
-/

namespace CRM

/-- Errors thrown by the controllers (`AppError` subclasses used by the
modelled operations). -/
inductive Err where
  | notFound (msg : String)
  | validationError (msg : String)
deriving DecidableEq, Repr

/-- `users` row (columns the modelled operations read). -/
structure User where
  id : String
  organizationId : String
deriving DecidableEq, Repr

/-- `organizations` row (only the primary key is read by the modelled joins). -/
structure Organization where
  id : String
deriving DecidableEq, Repr

/-- `customers` row. -/
structure Customer where
  id : String
  firstName : String
  lastName : String
  email : String
  phone : String
  company : Option String
  tags : List String
  customFields : Option String
  organizationId : String
  createdBy : String
  createdAt : Nat
  updatedAt : Nat
  deletedAt : Option Nat
deriving DecidableEq, Repr

/-- One entry of a pipeline's JSONB `stages` array. -/
structure Stage where
  id : String
  name : String
  order : Int
  probability : Int
deriving DecidableEq, Repr

/-- `pipelines` row. -/
structure Pipeline where
  id : String
  name : String
  stages : List Stage
  isDefault : Bool
  createdAt : Nat
  updatedAt : Nat
  createdBy : String
  organizationId : String
deriving DecidableEq, Repr

/-- `deals` row (`products` is kept as its serialized JSON text). -/
structure Deal where
  id : String
  customerId : String
  pipelineId : String
  stageId : String
  title : String
  value : Int
  currency : String
  expectedCloseDate : Option Nat
  actualCloseDate : Option Nat
  probability : Int
  notes : Option String
  products : String
  ownerId : String
  createdAt : Nat
  updatedAt : Nat
deriving DecidableEq, Repr

/-- `tasks` row. -/
structure Task where
  id : String
  title : String
  description : Option String
  priority : String
  status : String
  dueDate : Option Nat
  assigneeId : String
  relatedCustomerId : Option String
  relatedDealId : Option String
  isRecurring : Bool
  recurrenceRule : Option String
  timeSpent : Option Int
  completedAt : Option Nat
  createdAt : Nat
  updatedAt : Nat
deriving DecidableEq, Repr

/-- `contact_history` row. -/
structure ContactHistory where
  id : String
  customerId : String
  type : String
  subject : Option String
  body : String
  duration : Option Int
  attachments : List String
  aiSummary : Option String
  createdAt : Nat
  createdBy : String
deriving DecidableEq, Repr

/-- The relational database state. -/
structure DB where
  organizations : List Organization
  users : List User
  customers : List Customer
  pipelines : List Pipeline
  deals : List Deal
  tasks : List Task
  contactHistory : List ContactHistory
deriving DecidableEq, Repr

/-- JS truthiness of an optional string: `undefined`/`null` and the empty
string are falsy. -/
def jsTruthy : Option String → Bool
  | some s => !(s == "")
  | none => false

/-- The `x || null` idiom on a string-or-null value: the empty string is
collapsed to null. -/
def strOrNull : Option String → Option String
  | some s => if s == "" then none else some s
  | none => none

/-- The `x || null` idiom on a number-or-null value: `0` is falsy in JS and
collapses to null. -/
def intOrNull : Option Int → Option Int
  | some i => if i == 0 then none else some i
  | none => none

/-- `SELECT "organizationId" FROM users WHERE id = $1` — the tenant
resolution every controller method performs first. -/
def findUser (db : DB) (uid : String) : Option User :=
  db.users.find? (fun u => u.id == uid)

/-- Descending sort by `createdAt` (`ORDER BY "createdAt" DESC`). -/
def sortCustomersDesc (l : List Customer) : List Customer :=
  @List.insertionSort Customer (fun a b => b.createdAt ≤ a.createdAt)
    (fun x y => Nat.decLe y.createdAt x.createdAt) l

/-- Ascending sort by `createdAt` (`ORDER BY "createdAt" ASC`). -/
def sortPipelinesAsc (l : List Pipeline) : List Pipeline :=
  @List.insertionSort Pipeline (fun a b => a.createdAt ≤ b.createdAt)
    (fun x y => Nat.decLe x.createdAt y.createdAt) l

/-- Descending sort by `createdAt` (`ORDER BY ch."createdAt" DESC`). -/
def sortChDesc (l : List ContactHistory) : List ContactHistory :=
  @List.insertionSort ContactHistory (fun a b => b.createdAt ≤ a.createdAt)
    (fun x y => Nat.decLe y.createdAt x.createdAt) l

/-! ### Customer controller (`customer.controller.ts`) -/

/-- Row filter of `CustomerController.getAll` / the by-id lookups:
organization scope plus the soft-delete filter `"deletedAt" IS NULL`. -/
def customerVisible (org : String) (c : Customer) : Bool :=
  c.organizationId == org && c.deletedAt.isNone

/-- SQL row update of the customer soft delete:
`SET "deletedAt" = NOW(), "updatedAt" = NOW()`. -/
def customerSoftDeleted (now : Nat) (c : Customer) : Customer :=
  { c with deletedAt := some now, updatedAt := now }

/-- `CustomerController.getAll`. -/
def customerGetAll (db : DB) (callerId : String) :
    Except Err (List Customer) × DB :=
  match findUser db callerId with
  | none => (.error (.notFound "User not found"), db)
  | some u =>
      (.ok (sortCustomersDesc (db.customers.filter (customerVisible u.organizationId))), db)

/-- `CustomerController.getById`. -/
def customerGetById (db : DB) (callerId cid : String) :
    Except Err Customer × DB :=
  match findUser db callerId with
  | none => (.error (.notFound "User not found"), db)
  | some u =>
      match db.customers.find? (fun c => c.id == cid && customerVisible u.organizationId c) with
      | none => (.error (.notFound "Customer not found"), db)
      | some c => (.ok c, db)

/-- Zod-validated body of `PUT /customers/:id` (`updateCustomerSchema`):
every field optional, `company`/`customFields` additionally nullable.
`customFields` is kept as its serialized JSON text. -/
structure CustomerUpdateReq where
  firstName : Option String := none
  lastName : Option String := none
  email : Option String := none
  phone : Option String := none
  company : Option (Option String) := none
  tags : Option (List String) := none
  customFields : Option (Option String) := none
deriving DecidableEq, Repr

/-- Whether `CustomerController.update` pushes at least one `SET` clause. -/
def customerHasUpdates (req : CustomerUpdateReq) : Bool :=
  req.firstName.isSome || req.lastName.isSome || req.email.isSome ||
  req.phone.isSome || req.tags.isSome || req.company.isSome || req.customFields.isSome

/-- The single dynamically-built `UPDATE customers SET ...` applied to a row,
including the unconditional `"updatedAt" = NOW()`. -/
def applyCustomerPatch (now : Nat) (req : CustomerUpdateReq) (c : Customer) : Customer :=
  { c with
    firstName := req.firstName.getD c.firstName
    lastName := req.lastName.getD c.lastName
    email := (req.email.map String.toLower).getD c.email
    phone := req.phone.getD c.phone
    company := match req.company with
      | some v => strOrNull v
      | none => c.company
    tags := req.tags.getD c.tags
    customFields := match req.customFields with
      | some v => v
      | none => c.customFields
    updatedAt := now }

/-- `CustomerController.update`.  With no recognized field present the method
re-reads the row by bare id (`WHERE id = $1`, no tenant filter) and returns
it without any write; otherwise it runs one tenant-filtered `UPDATE`. -/
def customerUpdate (db : DB) (now : Nat) (callerId cid : String)
    (req : CustomerUpdateReq) : Except Err (Option Customer) × DB :=
  match findUser db callerId with
  | none => (.error (.notFound "User not found"), db)
  | some u =>
      match db.customers.find? (fun c => c.id == cid && customerVisible u.organizationId c) with
      | none => (.error (.notFound "Customer not found"), db)
      | some existing =>
          let emailDup :=
            match req.email with
            | some e =>
                jsTruthy (some e) && !(e.toLower == existing.email) &&
                (db.customers.any (fun c =>
                  c.email == e.toLower && c.organizationId == u.organizationId &&
                  !(c.id == cid) && c.deletedAt.isNone))
            | none => false
          if emailDup then
            (.error (.validationError "Customer with this email already exists"), db)
          else if customerHasUpdates req then
            let hit := fun c : Customer => c.id == cid && customerVisible u.organizationId c
            let newRows := db.customers.map
              (fun c => if hit c then applyCustomerPatch now req c else c)
            let db' := { db with customers := newRows }
            match db.customers.filter hit with
            | [] => (.error (.notFound "Customer not found"), db')
            | c0 :: _ => (.ok (some (applyCustomerPatch now req c0)), db')
          else
            (.ok (db.customers.find? (fun c => c.id == cid)), db)

/-- `CustomerController.delete` — the soft delete: one `UPDATE` setting
`"deletedAt" = NOW(), "updatedAt" = NOW()` on the tenant-filtered live row. -/
def customerDelete (db : DB) (now : Nat) (callerId cid : String) :
    Except Err Unit × DB :=
  match findUser db callerId with
  | none => (.error (.notFound "User not found"), db)
  | some u =>
      let hit := fun c : Customer => c.id == cid && customerVisible u.organizationId c
      let newRows := db.customers.map
        (fun c => if hit c then customerSoftDeleted now c else c)
      let db' := { db with customers := newRows }
      if db.customers.any hit then (.ok (), db')
      else (.error (.notFound "Customer not found"), db')

/-! ### Pipeline controller (`pipeline.controller.ts`) -/

/-- `PipelineController.getById`. -/
def pipelineGetById (db : DB) (callerId pid : String) :
    Except Err Pipeline × DB :=
  match findUser db callerId with
  | none => (.error (.notFound "User not found"), db)
  | some u =>
      match db.pipelines.find? (fun p => p.id == pid && p.organizationId == u.organizationId) with
      | none => (.error (.notFound "Pipeline not found"), db)
      | some p => (.ok p, db)

/-- `PipelineController.getDefault`: first a `"isDefault" = true LIMIT 1`
lookup, then a fallback to the oldest pipeline of the organization
(`ORDER BY "createdAt" ASC LIMIT 1`), else `NotFound`. -/
def pipelineGetDefault (db : DB) (callerId : String) :
    Except Err Pipeline × DB :=
  match findUser db callerId with
  | none => (.error (.notFound "User not found"), db)
  | some u =>
      match db.pipelines.find? (fun p => p.organizationId == u.organizationId && p.isDefault) with
      | some p => (.ok p, db)
      | none =>
          match (sortPipelinesAsc
              (db.pipelines.filter (fun p => p.organizationId == u.organizationId))).head? with
          | some p => (.ok p, db)
          | none => (.error (.notFound "No pipeline found for this organization"), db)

/-! ### Deal controller (`deal.controller.ts`) -/

/-- Join of the org-scoped deal SELECTs: `INNER JOIN customers`
(tenant filter and `c."deletedAt" IS NULL`), `INNER JOIN users` (owner),
`INNER JOIN pipelines`, `INNER JOIN organizations o … WHERE o.id = $org`. -/
def dealJoinScoped (db : DB) (org : String) (d : Deal) : Bool :=
  (db.customers.any (fun c =>
    c.id == d.customerId && c.organizationId == org && c.deletedAt.isNone)) &&
  (db.users.any (fun uu => uu.id == d.ownerId)) &&
  (db.pipelines.any (fun p => p.id == d.pipelineId)) &&
  (db.organizations.any (fun o => o.id == org))

/-- Join of the relation re-fetch after a deal write (`WHERE d.id = $1` with
the customer/owner/pipeline joins but no tenant filter). -/
def dealJoinBare (db : DB) (d : Deal) : Bool :=
  (db.customers.any (fun c => c.id == d.customerId)) &&
  (db.users.any (fun uu => uu.id == d.ownerId)) &&
  (db.pipelines.any (fun p => p.id == d.pipelineId))

/-- `DealController.getById`. -/
def dealGetById (db : DB) (callerId did : String) : Except Err Deal × DB :=
  match findUser db callerId with
  | none => (.error (.notFound "User not found"), db)
  | some u =>
      match db.deals.find? (fun d => d.id == did && dealJoinScoped db u.organizationId d) with
      | none => (.error (.notFound "Deal not found"), db)
      | some d => (.ok d, db)

/-- Zod-validated body of `POST /deals` (`createDealSchema`), with the zod
defaults (`currency := "USD"`, `probability := 0`, `products := []`) already
applied.  `products` is kept as serialized JSON text. -/
structure DealCreateReq where
  customerId : String
  pipelineId : String
  stageId : String
  title : String
  value : Int
  currency : String := "USD"
  expectedCloseDate : Option Nat := none
  probability : Int := 0
  notes : Option String := none
  products : String := "[]"
deriving DecidableEq, Repr

/-- `DealController.create`: tenant guard on customer and pipeline, stage
membership check against the pipeline's `stages` blob, probability range
check, then the single `INSERT`. -/
def dealCreate (db : DB) (now : Nat) (newId callerId : String)
    (req : DealCreateReq) : Except Err (Option Deal) × DB :=
  match findUser db callerId with
  | none => (.error (.notFound "User not found"), db)
  | some u =>
      match db.customers.find? (fun c =>
          c.id == req.customerId && c.organizationId == u.organizationId &&
          c.deletedAt.isNone) with
      | none => (.error (.notFound "Customer not found"), db)
      | some _ =>
          match db.pipelines.find? (fun p =>
              p.id == req.pipelineId && p.organizationId == u.organizationId) with
          | none => (.error (.notFound "Pipeline not found"), db)
          | some pipeline =>
              if !(pipeline.stages.any (fun s => s.id == req.stageId)) then
                (.error (.validationError "Invalid stage ID for this pipeline"), db)
              else if req.probability < 0 ∨ 100 < req.probability then
                (.error (.validationError "Probability must be between 0 and 100"), db)
              else
                let newDeal : Deal :=
                  { id := newId
                    customerId := req.customerId
                    pipelineId := req.pipelineId
                    stageId := req.stageId
                    title := req.title
                    value := req.value
                    currency := req.currency
                    expectedCloseDate := req.expectedCloseDate
                    actualCloseDate := none
                    probability := req.probability
                    notes := strOrNull req.notes
                    products := req.products
                    ownerId := callerId
                    createdAt := now
                    updatedAt := now }
                let db' := { db with deals := db.deals ++ [newDeal] }
                (.ok (db'.deals.find? (fun d => d.id == newId && dealJoinBare db' d)), db')

/-- Zod-validated body of `PUT /deals/:id` (`updateDealSchema`). -/
structure DealUpdateReq where
  title : Option String := none
  value : Option Int := none
  currency : Option String := none
  expectedCloseDate : Option (Option Nat) := none
  actualCloseDate : Option (Option Nat) := none
  probability : Option Int := none
  stageId : Option String := none
  notes : Option (Option String) := none
  products : Option String := none
deriving DecidableEq, Repr

/-- Whether `DealController.update` pushes at least one `SET` clause. -/
def dealHasUpdates (req : DealUpdateReq) : Bool :=
  req.title.isSome || req.value.isSome || req.currency.isSome ||
  req.expectedCloseDate.isSome || req.actualCloseDate.isSome ||
  req.probability.isSome || req.stageId.isSome || req.notes.isSome ||
  req.products.isSome

/-- The dynamically-built `UPDATE deals SET ...` applied to a row, including
the unconditional `"updatedAt" = NOW()`. -/
def applyDealPatch (now : Nat) (req : DealUpdateReq) (d : Deal) : Deal :=
  { d with
    title := req.title.getD d.title
    value := req.value.getD d.value
    currency := req.currency.getD d.currency
    expectedCloseDate := match req.expectedCloseDate with
      | some v => v
      | none => d.expectedCloseDate
    actualCloseDate := match req.actualCloseDate with
      | some v => v
      | none => d.actualCloseDate
    probability := req.probability.getD d.probability
    stageId := req.stageId.getD d.stageId
    notes := match req.notes with
      | some v => strOrNull v
      | none => d.notes
    products := req.products.getD d.products
    updatedAt := now }

/-- `DealController.update`.  The stage-membership guard only runs when the
supplied `stageId` is JS-truthy and the deal's pipeline row is found; the
final `UPDATE` is keyed by bare id (`WHERE id = $n`). -/
def dealUpdate (db : DB) (now : Nat) (callerId did : String)
    (req : DealUpdateReq) : Except Err (Option Deal) × DB :=
  match findUser db callerId with
  | none => (.error (.notFound "User not found"), db)
  | some u =>
      match db.deals.find? (fun d => d.id == did &&
          db.customers.any (fun c =>
            c.id == d.customerId && c.organizationId == u.organizationId)) with
      | none => (.error (.notFound "Deal not found"), db)
      | some existing =>
          let stageBad :=
            jsTruthy req.stageId &&
            (match db.pipelines.find? (fun p => p.id == existing.pipelineId) with
             | some pipeline =>
                 !(pipeline.stages.any (fun s => s.id == req.stageId.getD ""))
             | none => false)
          if stageBad then
            (.error (.validationError "Invalid stage ID for this pipeline"), db)
          else if (match req.probability with
              | some pr => decide (pr < 0 ∨ 100 < pr)
              | none => false) then
            (.error (.validationError "Probability must be between 0 and 100"), db)
          else if dealHasUpdates req then
            let newRows := db.deals.map
              (fun d => if d.id == did then applyDealPatch now req d else d)
            let db' := { db with deals := newRows }
            if db.deals.any (fun d => d.id == did) then
              (.ok (db'.deals.find? (fun d => d.id == did && dealJoinBare db' d)), db')
            else (.error (.notFound "Deal not found"), db')
          else
            match db.deals.find? (fun d => d.id == did && dealJoinBare db d) with
            | none => (.error (.notFound "Deal not found"), db)
            | some d => (.ok (some d), db)

/-- `DealController.delete`: one `DELETE … USING customers` keyed by deal id
and customer tenant (no soft-delete filter on the customer). -/
def dealDelete (db : DB) (callerId did : String) : Except Err Unit × DB :=
  match findUser db callerId with
  | none => (.error (.notFound "User not found"), db)
  | some u =>
      let hit := fun d : Deal => d.id == did &&
        db.customers.any (fun c =>
          c.id == d.customerId && c.organizationId == u.organizationId)
      let db' := { db with deals := db.deals.filter (fun d => !(hit d)) }
      if db.deals.any hit then (.ok (), db')
      else (.error (.notFound "Deal not found"), db')

/-! ### Task controller (`task.controller.ts`) -/

/-- Join of the org-scoped task SELECTs: `INNER JOIN users u ON
t."assigneeId" = u.id … WHERE u."organizationId" = $org` (the `LEFT JOIN
customers` adds no constraint). -/
def taskJoinScoped (db : DB) (org : String) (t : Task) : Bool :=
  db.users.any (fun uu => uu.id == t.assigneeId && uu.organizationId == org)

/-- Join of the relation re-fetch after a task write (`WHERE t.id = $1` with
the assignee join but no tenant filter). -/
def taskJoinBare (db : DB) (t : Task) : Bool :=
  db.users.any (fun uu => uu.id == t.assigneeId)

/-- `TaskController.getById`. -/
def taskGetById (db : DB) (callerId tid : String) : Except Err Task × DB :=
  match findUser db callerId with
  | none => (.error (.notFound "User not found"), db)
  | some u =>
      match db.tasks.find? (fun t => t.id == tid && taskJoinScoped db u.organizationId t) with
      | none => (.error (.notFound "Task not found"), db)
      | some t => (.ok t, db)

/-- Zod-validated body of `POST /tasks` (`createTaskSchema`), with the zod
defaults (`priority := "MEDIUM"`, `status := "PENDING"`,
`isRecurring := false`) already applied.  The schema allows any of
`PENDING`/`IN_PROGRESS`/`COMPLETE` as the initial status.  A `completedAt`
key in the raw body is stripped by the schema and never read by the
controller; it is carried here so that theorems can quantify over it. -/
structure TaskCreateReq where
  title : String
  description : Option String := none
  priority : String := "MEDIUM"
  status : String := "PENDING"
  dueDate : Option Nat := none
  assigneeId : Option String := none
  relatedCustomerId : Option String := none
  relatedDealId : Option String := none
  isRecurring : Bool := false
  recurrenceRule : Option String := none
  suppliedCompletedAt : Option Nat := none
deriving DecidableEq, Repr

/-- `TaskController.create`: assignee guard (defaulting to the caller),
optional related-customer guard, then the single `INSERT` — whose VALUES
list hardcodes `"timeSpent"` and `"completedAt"` to `NULL`. -/
def taskCreate (db : DB) (now : Nat) (newId callerId : String)
    (req : TaskCreateReq) : Except Err (Option Task) × DB :=
  match findUser db callerId with
  | none => (.error (.notFound "User not found"), db)
  | some u =>
      let aid := req.assigneeId.getD callerId
      match db.users.find? (fun uu =>
          uu.id == aid && uu.organizationId == u.organizationId) with
      | none => (.error (.notFound "Assignee not found"), db)
      | some _ =>
          let custMissing :=
            jsTruthy req.relatedCustomerId &&
            !(db.customers.any (fun c =>
              c.id == req.relatedCustomerId.getD "" &&
              c.organizationId == u.organizationId && c.deletedAt.isNone))
          if custMissing then
            (.error (.notFound "Customer not found"), db)
          else
            let newTask : Task :=
              { id := newId
                title := req.title
                description := strOrNull req.description
                priority := req.priority
                status := req.status
                dueDate := req.dueDate
                assigneeId := aid
                relatedCustomerId := strOrNull req.relatedCustomerId
                relatedDealId := strOrNull req.relatedDealId
                isRecurring := req.isRecurring
                recurrenceRule := strOrNull req.recurrenceRule
                timeSpent := none
                completedAt := none
                createdAt := now
                updatedAt := now }
            let db' := { db with tasks := db.tasks ++ [newTask] }
            (.ok (db'.tasks.find? (fun t => t.id == newId && taskJoinBare db' t)), db')

/-- Zod-validated body of `PUT /tasks/:id` (`updateTaskSchema`).  The schema
has no `completedAt` key, so any supplied `completedAt` is stripped before
the controller runs; `suppliedCompletedAt` carries the raw-body value so
theorems can quantify over it (the controller's only read of
`req.body.completedAt` feeds a dead write back into `req.body`). -/
structure TaskUpdateReq where
  title : Option String := none
  description : Option (Option String) := none
  priority : Option String := none
  status : Option String := none
  dueDate : Option (Option Nat) := none
  assigneeId : Option String := none
  relatedCustomerId : Option (Option String) := none
  relatedDealId : Option (Option String) := none
  timeSpent : Option (Option Int) := none
  suppliedCompletedAt : Option (Option Nat) := none
deriving DecidableEq, Repr

/-- Whether `TaskController.update` pushes at least one `SET` clause
(`suppliedCompletedAt` never becomes one). -/
def taskHasUpdates (req : TaskUpdateReq) : Bool :=
  req.title.isSome || req.description.isSome || req.priority.isSome ||
  req.status.isSome || req.dueDate.isSome || req.assigneeId.isSome ||
  req.relatedCustomerId.isSome || req.relatedDealId.isSome || req.timeSpent.isSome

/-- The dynamically-built `UPDATE tasks SET ...` applied to a row.  When
`status` is present the statement also sets `"completedAt" = NOW()` (status
`COMPLETE`) or `"completedAt" = NULL` (any other status), unconditionally. -/
def applyTaskPatch (now : Nat) (req : TaskUpdateReq) (t : Task) : Task :=
  let t1 := { t with
    title := req.title.getD t.title
    description := match req.description with
      | some v => strOrNull v
      | none => t.description
    priority := req.priority.getD t.priority
    dueDate := match req.dueDate with
      | some v => v
      | none => t.dueDate
    assigneeId := req.assigneeId.getD t.assigneeId
    relatedCustomerId := match req.relatedCustomerId with
      | some v => strOrNull v
      | none => t.relatedCustomerId
    relatedDealId := match req.relatedDealId with
      | some v => strOrNull v
      | none => t.relatedDealId
    timeSpent := match req.timeSpent with
      | some v => intOrNull v
      | none => t.timeSpent
    updatedAt := now }
  match req.status with
  | some s =>
      { t1 with status := s
                completedAt := if s == "COMPLETE" then some now else none }
  | none => t1

/-- `TaskController.update`: tenant existence check through the assignee
join, optional assignee/customer guards, then either the no-op re-read or
one `UPDATE` keyed by bare id. -/
def taskUpdate (db : DB) (now : Nat) (callerId tid : String)
    (req : TaskUpdateReq) : Except Err (Option Task) × DB :=
  match findUser db callerId with
  | none => (.error (.notFound "User not found"), db)
  | some u =>
      match db.tasks.find? (fun t => t.id == tid && taskJoinScoped db u.organizationId t) with
      | none => (.error (.notFound "Task not found"), db)
      | some _ =>
          let assigneeMissing :=
            jsTruthy req.assigneeId &&
            !(db.users.any (fun uu =>
              uu.id == req.assigneeId.getD "" && uu.organizationId == u.organizationId))
          if assigneeMissing then
            (.error (.notFound "Assignee not found"), db)
          else
            let custMissing :=
              jsTruthy (req.relatedCustomerId.getD none) &&
              !(db.customers.any (fun c =>
                c.id == (req.relatedCustomerId.getD none).getD "" &&
                c.organizationId == u.organizationId && c.deletedAt.isNone))
            if custMissing then
              (.error (.notFound "Customer not found"), db)
            else if taskHasUpdates req then
              let newRows := db.tasks.map
                (fun t => if t.id == tid then applyTaskPatch now req t else t)
              let db' := { db with tasks := newRows }
              if db.tasks.any (fun t => t.id == tid) then
                (.ok (db'.tasks.find? (fun t => t.id == tid && taskJoinBare db' t)), db')
              else (.error (.notFound "Task not found"), db')
            else
              match db.tasks.find? (fun t => t.id == tid && taskJoinBare db t) with
              | none => (.error (.notFound "Task not found"), db)
              | some t => (.ok (some t), db)

/-- `TaskController.delete`: one `DELETE … USING users` keyed by task id and
assignee tenant. -/
def taskDelete (db : DB) (callerId tid : String) : Except Err Unit × DB :=
  match findUser db callerId with
  | none => (.error (.notFound "User not found"), db)
  | some u =>
      let hit := fun t : Task => t.id == tid && taskJoinScoped db u.organizationId t
      let db' := { db with tasks := db.tasks.filter (fun t => !(hit t)) }
      if db.tasks.any hit then (.ok (), db')
      else (.error (.notFound "Task not found"), db')

/-! ### Contact-history controller (`contactHistory.controller.ts`) -/

/-- Join of the org-scoped contact-history SELECTs: `INNER JOIN customers`
(tenant filter and `c."deletedAt" IS NULL`) and `INNER JOIN users` on the
creator. -/
def chJoinScoped (db : DB) (org : String) (ch : ContactHistory) : Bool :=
  (db.customers.any (fun c =>
    c.id == ch.customerId && c.organizationId == org && c.deletedAt.isNone)) &&
  (db.users.any (fun uu => uu.id == ch.createdBy))

/-- Join of the relation re-fetch after a contact-history write. -/
def chJoinBare (db : DB) (ch : ContactHistory) : Bool :=
  (db.customers.any (fun c => c.id == ch.customerId)) &&
  (db.users.any (fun uu => uu.id == ch.createdBy))

/-- The optional `ch."customerId" = $n` / `ch.type = $n` filters of
`ContactHistoryController.getAll`, added only when the query parameter is
JS-truthy. -/
def filtMatch (f : Option String) (v : String) : Bool :=
  match f with
  | some s => if s == "" then true else v == s
  | none => true

/-- The full (pre-`LIMIT`/`OFFSET`) result list of
`ContactHistoryController.getAll`: joined, filtered, ordered by
`ch."createdAt" DESC`. -/
def chFullList (db : DB) (org : String) (customerIdF typeF : Option String) :
    List ContactHistory :=
  sortChDesc (db.contactHistory.filter (fun ch =>
    chJoinScoped db org ch && filtMatch customerIdF ch.customerId &&
    filtMatch typeF ch.type))

/-- `ContactHistoryController.getAll` with its `limit`/`offset` paging
(the separate COUNT query only feeds the response metadata and is not
modelled). -/
def chGetAll (db : DB) (callerId : String) (customerIdF typeF : Option String)
    (limit offset : Nat) : Except Err (List ContactHistory) × DB :=
  match findUser db callerId with
  | none => (.error (.notFound "User not found"), db)
  | some u =>
      (.ok (((chFullList db u.organizationId customerIdF typeF).drop offset).take limit), db)

/-- `ContactHistoryController.getById`. -/
def chGetById (db : DB) (callerId chid : String) :
    Except Err ContactHistory × DB :=
  match findUser db callerId with
  | none => (.error (.notFound "User not found"), db)
  | some u =>
      match db.contactHistory.find? (fun ch =>
          ch.id == chid && chJoinScoped db u.organizationId ch) with
      | none => (.error (.notFound "Contact history entry not found"), db)
      | some ch => (.ok ch, db)

/-- Zod-validated body of `PUT /contact-history/:id`
(`updateContactHistorySchema`). -/
structure ChUpdateReq where
  subject : Option (Option String) := none
  body : Option String := none
  duration : Option (Option Int) := none
  attachments : Option (List String) := none
  aiSummary : Option (Option String) := none
deriving DecidableEq, Repr

/-- Whether `ContactHistoryController.update` pushes at least one `SET`
clause. -/
def chHasUpdates (req : ChUpdateReq) : Bool :=
  req.subject.isSome || req.body.isSome || req.duration.isSome ||
  req.attachments.isSome || req.aiSummary.isSome

/-- The dynamically-built `UPDATE contact_history SET ...` applied to a row
(this table has no last-modified column and none is touched). -/
def applyChPatch (req : ChUpdateReq) (ch : ContactHistory) : ContactHistory :=
  { ch with
    subject := match req.subject with
      | some v => strOrNull v
      | none => ch.subject
    body := req.body.getD ch.body
    duration := match req.duration with
      | some v => intOrNull v
      | none => ch.duration
    attachments := req.attachments.getD ch.attachments
    aiSummary := match req.aiSummary with
      | some v => strOrNull v
      | none => ch.aiSummary }

/-- `ContactHistoryController.update`: tenant existence check through the
customer join (no soft-delete filter there), then either the no-op re-read
or one `UPDATE` keyed by bare id. -/
def chUpdate (db : DB) (callerId chid : String) (req : ChUpdateReq) :
    Except Err (Option ContactHistory) × DB :=
  match findUser db callerId with
  | none => (.error (.notFound "User not found"), db)
  | some u =>
      match db.contactHistory.find? (fun ch => ch.id == chid &&
          db.customers.any (fun c =>
            c.id == ch.customerId && c.organizationId == u.organizationId)) with
      | none => (.error (.notFound "Contact history entry not found"), db)
      | some _ =>
          if chHasUpdates req then
            let newRows := db.contactHistory.map
              (fun ch => if ch.id == chid then applyChPatch req ch else ch)
            let db' := { db with contactHistory := newRows }
            if db.contactHistory.any (fun ch => ch.id == chid) then
              (.ok (db'.contactHistory.find? (fun ch =>
                ch.id == chid && chJoinBare db' ch)), db')
            else (.error (.notFound "Contact history entry not found"), db')
          else
            match db.contactHistory.find? (fun ch => ch.id == chid && chJoinBare db ch) with
            | none => (.error (.notFound "Contact history entry not found"), db)
            | some ch => (.ok (some ch), db)

/-- `ContactHistoryController.delete`: one `DELETE … USING customers` keyed
by entry id and customer tenant. -/
def chDelete (db : DB) (callerId chid : String) : Except Err Unit × DB :=
  match findUser db callerId with
  | none => (.error (.notFound "User not found"), db)
  | some u =>
      let hit := fun ch : ContactHistory => ch.id == chid &&
        db.customers.any (fun c =>
          c.id == ch.customerId && c.organizationId == u.organizationId)
      let db' := { db with contactHistory := db.contactHistory.filter (fun ch => !(hit ch)) }
      if db.contactHistory.any hit then (.ok (), db')
      else (.error (.notFound "Contact history entry not found"), db')

/-! ### Concrete two-tenant sample state used by witnesses and
counterexamples -/

/-- Sample user of organization A. -/
def wUserA : User := ⟨"uA", "orgA"⟩

/-- Sample user of organization B. -/
def wUserB : User := ⟨"uB", "orgB"⟩

/-- Sample live customer of organization A. -/
def wCustA : Customer :=
  ⟨"cA", "J", "D", "j@x.com", "1", none, [], none, "orgA", "uA", 1, 2, none⟩

/-- Sample live customer of organization B. -/
def wCustB : Customer :=
  ⟨"cB", "K", "E", "k@y.com", "2", none, [], none, "orgB", "uB", 1, 2, none⟩

/-- Sample pipeline of organization A with stage ids "1" and "2". -/
def wPipeA : Pipeline :=
  ⟨"pA", "P", [⟨"1", "Lead", 1, 10⟩, ⟨"2", "Won", 2, 100⟩], true, 1, 1, "uA", "orgA"⟩

/-- Sample pipeline of organization B; its stage list carries the id "9" and
a degenerate empty-string stage id. -/
def wPipeB : Pipeline :=
  ⟨"pB", "Q", [⟨"9", "X", 1, 0⟩, ⟨"", "Y", 2, 0⟩], false, 1, 1, "uB", "orgB"⟩

/-- Sample deal of organization A (customer `wCustA`, pipeline `wPipeA`,
stage "1"). -/
def wDealA : Deal :=
  ⟨"dA", "cA", "pA", "1", "T", 5, "USD", none, none, 0, none, "[]", "uA", 1, 2⟩

/-- Sample deal of organization B. -/
def wDealB : Deal :=
  ⟨"dB", "cB", "pB", "9", "T", 5, "USD", none, none, 0, none, "[]", "uB", 1, 2⟩

/-- Sample task assigned to `wUserA`. -/
def wTaskA : Task :=
  ⟨"tA", "T", none, "MEDIUM", "PENDING", none, "uA", none, none, false, none, none, none, 1, 2⟩

/-- Sample task assigned to `wUserB`. -/
def wTaskB : Task :=
  ⟨"tB", "T", none, "MEDIUM", "PENDING", none, "uB", none, none, false, none, none, none, 1, 2⟩

/-- Sample contact-history entry on `wCustA`, created by `wUserA`. -/
def wChA : ContactHistory := ⟨"hA", "cA", "CALL", none, "b", none, [], none, 1, "uA"⟩

/-- Sample contact-history entry on `wCustB`, created by `wUserB`. -/
def wChB : ContactHistory := ⟨"hB", "cB", "CALL", none, "b", none, [], none, 1, "uB"⟩

/-- Two-organization sample database. -/
def wDB : DB :=
  ⟨[⟨"orgA"⟩, ⟨"orgB"⟩], [wUserA, wUserB], [wCustA, wCustB], [wPipeA, wPipeB],
   [wDealA, wDealB], [wTaskA, wTaskB], [wChA, wChB]⟩

/-- Two-tenant sample database in which every organization-B row carries the
primary key "f1" (keys may coincide across tables). -/
def wDB2 : DB :=
  ⟨[⟨"orgA"⟩, ⟨"orgB"⟩], [⟨"uA", "orgA"⟩, ⟨"uB", "orgB"⟩],
   [⟨"f1", "K", "E", "k@y.com", "2", none, [], none, "orgB", "uB", 1, 2, none⟩],
   [⟨"f1", "Q", [⟨"9", "X", 1, 0⟩], false, 1, 1, "uB", "orgB"⟩],
   [⟨"f1", "f1", "f1", "9", "T", 5, "USD", none, none, 0, none, "[]", "uB", 1, 2⟩],
   [⟨"f1", "T", none, "MEDIUM", "PENDING", none, "uB", none, none, false, none, none, none, 1, 2⟩],
   [⟨"f1", "f1", "CALL", none, "b", none, [], none, 1, "uB"⟩]⟩

/-- Extracts the page list from a contact-history listing outcome. -/
def pageOf (r : Except Err (List ContactHistory)) : List ContactHistory :=
  match r with
  | .ok l => l
  | .error _ => []

/-! ### Theorems -/

/-- C3: a deal-create request whose customer and pipeline both resolve inside
the caller's organization but whose `stageId` is not the id of any stage in
that pipeline's stage list fails with `ValidationError`, and the database
state is returned unchanged — no deal row (nor any other row) is written. -/
theorem c3_create_invalid_stage_rejected
    (db : DB) (now : Nat) (newId callerId : String) (req : DealCreateReq)
    (u : User) (hu : findUser db callerId = some u)
    (c0 : Customer)
    (hc : db.customers.find? (fun c => c.id == req.customerId &&
      c.organizationId == u.organizationId && c.deletedAt.isNone) = some c0)
    (p0 : Pipeline)
    (hp : db.pipelines.find? (fun p => p.id == req.pipelineId &&
      p.organizationId == u.organizationId) = some p0)
    (hs : p0.stages.any (fun s => s.id == req.stageId) = false) :
    dealCreate db now newId callerId req =
      (.error (.validationError "Invalid stage ID for this pipeline"), db) := by
  simp only [dealCreate, hu, hc, hp, hs, Bool.not_false, if_true]

/-- Witness for C3 at a concrete state: one organization, a caller, a
customer and a two-stage pipeline; stage id "9" is not in the list. -/
theorem c3_create_invalid_stage_rejected_witness :
    dealCreate
      ⟨[⟨"orgA"⟩], [⟨"uA", "orgA"⟩],
       [⟨"cA", "J", "D", "j@x.com", "1", none, [], none, "orgA", "uA", 1, 1, none⟩],
       [⟨"pA", "P", [⟨"1", "Lead", 1, 10⟩, ⟨"2", "Won", 2, 100⟩], true, 1, 1, "uA", "orgA"⟩],
       [], [], []⟩
      7 "dN" "uA"
      { customerId := "cA", pipelineId := "pA", stageId := "9",
        title := "x", value := 5 } =
    (.error (.validationError "Invalid stage ID for this pipeline"),
      ⟨[⟨"orgA"⟩], [⟨"uA", "orgA"⟩],
       [⟨"cA", "J", "D", "j@x.com", "1", none, [], none, "orgA", "uA", 1, 1, none⟩],
       [⟨"pA", "P", [⟨"1", "Lead", 1, 10⟩, ⟨"2", "Won", 2, 100⟩], true, 1, 1, "uA", "orgA"⟩],
       [], [], []⟩) :=
  c3_create_invalid_stage_rejected _ 7 "dN" "uA" _ _ rfl _ rfl _ rfl rfl

/-- The application-layer probability range for deals. -/
def dealProbOk (d : Deal) : Prop := 0 ≤ d.probability ∧ d.probability ≤ 100

/-- C5: deal create and update keep every stored probability inside
`[0,100]`: starting from a state where every deal's probability is in range,
any create or update (with arbitrary supplied probability input) leaves
every deal's probability in range — out-of-range input is rejected before
the write. -/
theorem c5_probability_in_range
    (db : DB) (hinv : ∀ d ∈ db.deals, dealProbOk d)
    (now : Nat) (newId callerId did : String)
    (creq : DealCreateReq) (ureq : DealUpdateReq) :
    (∀ d ∈ (dealCreate db now newId callerId creq).2.deals, dealProbOk d) ∧
    (∀ d ∈ (dealUpdate db now callerId did ureq).2.deals, dealProbOk d) := by
  constructor
  · intro d hd
    simp only [dealCreate] at hd
    split at hd
    · exact hinv d hd
    · split at hd
      · exact hinv d hd
      · split at hd
        · exact hinv d hd
        · split at hd
          · exact hinv d hd
          · split at hd
            · exact hinv d hd
            · rename_i hpr
              rcases List.mem_append.1 hd with h | h
              · exact hinv d h
              · rcases List.mem_singleton.1 h with rfl
                refine ⟨?_, ?_⟩ <;> simp only [dealProbOk] <;> omega
  · intro d hd
    simp only [dealUpdate] at hd
    split at hd
    · exact hinv d hd
    · split at hd
      · exact hinv d hd
      · split at hd
        · exact hinv d hd
        · split at hd
          · exact hinv d hd
          · rename_i hpr
            split at hd
            · split at hd <;>
              · rcases List.mem_map.1 hd with ⟨a, ha, rfl⟩
                by_cases hid : (a.id == did) = true
                · simp only [hid, if_true, applyDealPatch]
                  rcases hq : ureq.probability with _ | pr
                  · simpa [dealProbOk, hq] using hinv a ha
                  · rw [hq] at hpr
                    simp only [decide_eq_true_eq] at hpr
                    simp only [dealProbOk, Option.getD_some]
                    omega
                · simp only [hid, if_false]
                  exact hinv a ha
            · split at hd <;> exact hinv d hd

/-- Witness for C5 at a concrete state: empty deal table, a create request
carrying probability 150 and an update request carrying probability (-5);
both leave the (empty) deal table with all probabilities in range. -/
theorem c5_probability_in_range_witness :
    (∀ d ∈ (dealCreate ⟨[], [], [], [], [], [], []⟩ 7 "dN" "uA"
        { customerId := "cA", pipelineId := "pA", stageId := "1",
          title := "x", value := 5, probability := 150 }).2.deals, dealProbOk d) ∧
    (∀ d ∈ (dealUpdate ⟨[], [], [], [], [], [], []⟩ 7 "uA" "dX"
        { probability := some (-5) }).2.deals, dealProbOk d) :=
  c5_probability_in_range ⟨[], [], [], [], [], [], []⟩
    (by intro d hd; simp at hd) 7 "dN" "uA" "dX" _ _

/-- C2 (failing input): `createTaskSchema` accepts `status = "COMPLETE"`,
but the INSERT of `TaskController.create` hardcodes `"completedAt"` to
`NULL`.  Creating a task with status COMPLETE (here with an explicit
`completedAt` in the raw body, which the schema strips) therefore succeeds
and stores a row whose status is COMPLETE while `completedAt` is null —
contradicting the claimed "non-null iff COMPLETE" coupling, which the
update path does enforce (`applyTaskPatch`).  The create path is the
divergence. -/
theorem c2_create_complete_stores_null_completedAt :
    ((taskCreate ⟨[⟨"orgA"⟩], [⟨"uA", "orgA"⟩], [], [], [], [], []⟩ 7 "tN" "uA"
        { title := "t", status := "COMPLETE",
          suppliedCompletedAt := some 99 }).2.tasks.map
      (fun t => (t.status, t.completedAt))) = [("COMPLETE", none)] ∧
    (∃ r, (taskCreate ⟨[⟨"orgA"⟩], [⟨"uA", "orgA"⟩], [], [], [], [], []⟩ 7 "tN" "uA"
        { title := "t", status := "COMPLETE",
          suppliedCompletedAt := some 99 }).1 = .ok (some r) ∧
      r.status = "COMPLETE" ∧ r.completedAt = none) := by
  refine ⟨rfl, ?_⟩
  refine ⟨{ id := "tN", title := "t", description := none, priority := "MEDIUM",
            status := "COMPLETE", dueDate := none, assigneeId := "uA",
            relatedCustomerId := none, relatedDealId := none, isRecurring := false,
            recurrenceRule := none, timeSpent := none, completedAt := none,
            createdAt := 7, updatedAt := 7 }, rfl, rfl, rfl⟩

/-- C9: neither task create nor task update ever validates `relatedDealId`.
Whenever the assignee guard and the related-customer guard pass, the
operation succeeds for an arbitrary `relatedDealId` (referencing a deal of
another organization, or no deal at all — nothing about `db.deals` is
assumed) and stores that id verbatim on the task; only those two guards can
produce a `NotFound` failure. -/
theorem c9_relatedDealId_never_validated
    (db : DB) (now : Nat) (newId callerId tid : String) (u : User)
    (hu : findUser db callerId = some u)
    (creq : TaskCreateReq) (ureq : TaskUpdateReq) (rdid rdid2 : String)
    (a0 : User)
    (ha : db.users.find? (fun uu => uu.id == creq.assigneeId.getD callerId &&
      uu.organizationId == u.organizationId) = some a0)
    (hcg : (jsTruthy creq.relatedCustomerId &&
      !(db.customers.any (fun c => c.id == creq.relatedCustomerId.getD "" &&
        c.organizationId == u.organizationId && c.deletedAt.isNone))) = false)
    (hrd : creq.relatedDealId = some rdid) (hne : rdid ≠ "")
    (t0 : Task)
    (hex : db.tasks.find? (fun t => t.id == tid &&
      taskJoinScoped db u.organizationId t) = some t0)
    (hag : (jsTruthy ureq.assigneeId &&
      !(db.users.any (fun uu => uu.id == ureq.assigneeId.getD "" &&
        uu.organizationId == u.organizationId))) = false)
    (hug : (jsTruthy (ureq.relatedCustomerId.getD none) &&
      !(db.customers.any (fun c => c.id == (ureq.relatedCustomerId.getD none).getD "" &&
        c.organizationId == u.organizationId && c.deletedAt.isNone))) = false)
    (hrd2 : ureq.relatedDealId = some (some rdid2)) (hne2 : rdid2 ≠ "") :
    ((∃ t, (taskCreate db now newId callerId creq).2.tasks = db.tasks ++ [t] ∧
        t.relatedDealId = some rdid ∧ t.id = newId) ∧
      (∃ r, (taskCreate db now newId callerId creq).1 = .ok r)) ∧
    ((∃ r, (taskUpdate db now callerId tid ureq).1 = .ok r) ∧
      (∀ t ∈ (taskUpdate db now callerId tid ureq).2.tasks,
        t.id = tid → t.relatedDealId = some rdid2)) := by
  have hne' : (rdid == "") = false := by
    simpa using hne
  have hne2' : (rdid2 == "") = false := by
    simpa using hne2
  refine ⟨⟨?_, ?_⟩, ?_, ?_⟩
  · refine ⟨{ id := newId, title := creq.title,
              description := strOrNull creq.description, priority := creq.priority,
              status := creq.status, dueDate := creq.dueDate,
              assigneeId := creq.assigneeId.getD callerId,
              relatedCustomerId := strOrNull creq.relatedCustomerId,
              relatedDealId := strOrNull creq.relatedDealId,
              isRecurring := creq.isRecurring,
              recurrenceRule := strOrNull creq.recurrenceRule,
              timeSpent := none, completedAt := none,
              createdAt := now, updatedAt := now }, ?_, ?_, rfl⟩
    · simp only [taskCreate, hu, ha, hcg, Bool.false_eq_true, if_false]
    · simp [strOrNull, hrd, hne']
  · simp only [taskCreate, hu, ha, hcg, Bool.false_eq_true, if_false]
    exact ⟨_, rfl⟩
  · have hhas : taskHasUpdates ureq = true := by
      simp [taskHasUpdates, hrd2]
    have hany : db.tasks.any (fun t => t.id == tid) = true := by
      have hmem := List.mem_of_find?_eq_some hex
      have hp := List.find?_some hex
      simp only [Bool.and_eq_true, beq_iff_eq] at hp
      exact List.any_eq_true.2 ⟨t0, hmem, by simp [hp.1]⟩
    simp only [taskUpdate, hu, hex, hag, hug, Bool.false_eq_true, if_false,
      hhas, if_true, hany]
    exact ⟨_, rfl⟩
  · intro t ht htid
    have hhas : taskHasUpdates ureq = true := by
      simp [taskHasUpdates, hrd2]
    simp only [taskUpdate, hu, hex, hag, hug, Bool.false_eq_true, if_false,
      hhas, if_true] at ht
    split at ht
    · rcases List.mem_map.1 ht with ⟨a, _, rfl⟩
      by_cases hid : (a.id == tid) = true
      · simp only [hid, if_true, applyTaskPatch, hrd2]
        rcases hst : ureq.status with _ | s <;>
          simp [strOrNull, hne2', hst]
      · exfalso
        rw [if_neg hid] at htid
        exact hid (by simp [htid])
    · rename_i hanyf
      exfalso
      apply hanyf
      have hmem := List.mem_of_find?_eq_some hex
      have hp := List.find?_some hex
      simp only [Bool.and_eq_true, beq_iff_eq] at hp
      exact List.any_eq_true.2 ⟨t0, hmem, by simp [hp.1]⟩

/-- Witness for C9 at the concrete sample state: "zz" is the id of no deal
in any organization, yet creating a task with `relatedDealId = "zz"` and
updating task "tA" to `relatedDealId = "zz"` both succeed and store it. -/
theorem c9_relatedDealId_never_validated_witness :
    ((∃ t, (taskCreate wDB 7 "tN" "uA"
        { title := "t", relatedDealId := some "zz" }).2.tasks =
          wDB.tasks ++ [t] ∧ t.relatedDealId = some "zz" ∧ t.id = "tN") ∧
      (∃ r, (taskCreate wDB 7 "tN" "uA"
        { title := "t", relatedDealId := some "zz" }).1 = .ok r)) ∧
    ((∃ r, (taskUpdate wDB 7 "uA" "tA"
        { relatedDealId := some (some "zz") }).1 = .ok r) ∧
      (∀ t ∈ (taskUpdate wDB 7 "uA" "tA"
        { relatedDealId := some (some "zz") }).2.tasks,
        t.id = "tA" → t.relatedDealId = some "zz")) :=
  c9_relatedDealId_never_validated wDB 7 "tN" "uA" "tA" wUserA rfl
    { title := "t", relatedDealId := some "zz" }
    { relatedDealId := some (some "zz") } "zz" "zz" wUserA rfl rfl rfl
    (by decide) wTaskA rfl rfl rfl rfl (by decide)

/-- C10: `PipelineController.getDefault` returns some pipeline of the
caller's organization marked `isDefault` when one exists; when none is
marked default it returns an organization pipeline of minimal `createdAt`
(the oldest); and — for a resolvable caller — it fails with `NotFound`
exactly when the organization has no pipelines at all. -/
theorem c10_get_default_pipeline
    (db : DB) (callerId : String) (u : User)
    (hu : findUser db callerId = some u) :
    ((∀ p0, db.pipelines.find? (fun p => p.organizationId == u.organizationId &&
        p.isDefault) = some p0 →
      ∃ q, (pipelineGetDefault db callerId).1 = .ok q ∧
        q.organizationId = u.organizationId ∧ q.isDefault = true) ∧
     (db.pipelines.find? (fun p => p.organizationId == u.organizationId &&
        p.isDefault) = none →
      ∀ q, (pipelineGetDefault db callerId).1 = .ok q →
        q ∈ db.pipelines ∧ q.organizationId = u.organizationId ∧
        ∀ p ∈ db.pipelines, p.organizationId = u.organizationId →
          q.createdAt ≤ p.createdAt)) ∧
    ((pipelineGetDefault db callerId).1 =
        .error (.notFound "No pipeline found for this organization") ↔
      ∀ p ∈ db.pipelines, p.organizationId ≠ u.organizationId) := by
  have hperm : ∀ l : List Pipeline, List.Perm (sortPipelinesAsc l) l := by
    intro l
    exact @List.perm_insertionSort Pipeline _
      (fun x y => Nat.decLe x.createdAt y.createdAt) l
  have hsorted : ∀ l : List Pipeline,
      List.Sorted (fun a b => a.createdAt ≤ b.createdAt) (sortPipelinesAsc l) := by
    intro l
    exact @List.sorted_insertionSort Pipeline _
      (fun x y => Nat.decLe x.createdAt y.createdAt)
      ⟨fun a b => Nat.le_total a.createdAt b.createdAt⟩
      ⟨fun _ _ _ => Nat.le_trans⟩ l
  refine ⟨⟨?_, ?_⟩, ?_⟩
  · intro p0 hfind
    have hp := List.find?_some hfind
    simp only [Bool.and_eq_true, beq_iff_eq] at hp
    exact ⟨p0, by simp only [pipelineGetDefault, hu, hfind], hp.1, hp.2⟩
  · intro hnone q hq
    simp only [pipelineGetDefault, hu, hnone] at hq
    rcases hh : (sortPipelinesAsc (db.pipelines.filter
        (fun p => p.organizationId == u.organizationId))).head? with _ | q0
    · rw [hh] at hq
      exact absurd hq (by simp)
    · rw [hh] at hq
      obtain rfl : q0 = q := by simpa using hq
      have hhd : q0 ∈ (sortPipelinesAsc (db.pipelines.filter
          (fun pp => pp.organizationId == u.organizationId))).head? := by
        rw [hh]
        rfl
      have hmemq : q0 ∈ db.pipelines.filter
          (fun p => p.organizationId == u.organizationId) :=
        (hperm _).mem_iff.1 (List.mem_of_mem_head? hhd)
      have hqf := List.of_mem_filter hmemq
      simp only [beq_iff_eq] at hqf
      refine ⟨List.mem_of_mem_filter hmemq, hqf, ?_⟩
      intro p hp hporg
      have hpmem : p ∈ sortPipelinesAsc (db.pipelines.filter
          (fun pp => pp.organizationId == u.organizationId)) :=
        (hperm _).mem_iff.2 (List.mem_filter.2 ⟨hp, by simp [hporg]⟩)
      have hcons := List.eq_cons_of_mem_head? hhd
      have hs := hsorted (db.pipelines.filter
        (fun pp => pp.organizationId == u.organizationId))
      rw [hcons] at hs hpmem
      rcases List.mem_cons.1 hpmem with rfl | hpmem2
      · exact Nat.le_refl _
      · exact (List.sorted_cons.1 hs).1 p hpmem2
  · constructor
    · intro herr p hp hporg
      simp only [pipelineGetDefault, hu] at herr
      rcases hdf : db.pipelines.find? (fun pp => pp.organizationId == u.organizationId &&
          pp.isDefault) with _ | p0
      · rw [hdf] at herr
        rcases hh : (sortPipelinesAsc (db.pipelines.filter
            (fun pp => pp.organizationId == u.organizationId))).head? with _ | q0
        · have : p ∈ sortPipelinesAsc (db.pipelines.filter
              (fun pp => pp.organizationId == u.organizationId)) :=
            (hperm _).mem_iff.2 (List.mem_filter.2 ⟨hp, by simp [hporg]⟩)
          rcases hsl : sortPipelinesAsc (db.pipelines.filter
              (fun pp => pp.organizationId == u.organizationId)) with _ | _
          · rw [hsl] at this
            simp at this
          · rw [hsl] at hh
            simp at hh
        · rw [hh] at herr
          exact absurd herr (by simp)
      · rw [hdf] at herr
        exact absurd herr (by simp)
    · intro hnop
      have hdf : db.pipelines.find? (fun pp => pp.organizationId == u.organizationId &&
          pp.isDefault) = none := by
        rw [List.find?_eq_none]
        intro p hp
        simp only [Bool.and_eq_true, beq_iff_eq, not_and]
        intro hporg
        exact absurd hporg (hnop p hp)
      have hfil : db.pipelines.filter
          (fun pp => pp.organizationId == u.organizationId) = [] := by
        rw [List.filter_eq_nil_iff]
        intro p hp
        simp only [beq_iff_eq]
        exact hnop p hp
      simp only [pipelineGetDefault, hu, hdf, hfil]
      rfl

/-- Witness for C10 at a concrete state: an organization with two
pipelines, none marked default; the op returns the older one and does not
fail. -/
theorem c10_get_default_pipeline_witness :
    ((∀ p0, (([⟨"p1", "P", [], false, 5, 5, "uA", "orgA"⟩,
        ⟨"p2", "Q", [], false, 3, 3, "uA", "orgA"⟩] : List Pipeline).find?
          (fun p => p.organizationId == "orgA" && p.isDefault)) = some p0 →
      ∃ q, (pipelineGetDefault
          ⟨[⟨"orgA"⟩], [⟨"uA", "orgA"⟩], [],
           [⟨"p1", "P", [], false, 5, 5, "uA", "orgA"⟩,
            ⟨"p2", "Q", [], false, 3, 3, "uA", "orgA"⟩], [], [], []⟩ "uA").1 = .ok q ∧
        q.organizationId = "orgA" ∧ q.isDefault = true) ∧
     ((([⟨"p1", "P", [], false, 5, 5, "uA", "orgA"⟩,
        ⟨"p2", "Q", [], false, 3, 3, "uA", "orgA"⟩] : List Pipeline).find?
          (fun p => p.organizationId == "orgA" && p.isDefault)) = none →
      ∀ q, (pipelineGetDefault
          ⟨[⟨"orgA"⟩], [⟨"uA", "orgA"⟩], [],
           [⟨"p1", "P", [], false, 5, 5, "uA", "orgA"⟩,
            ⟨"p2", "Q", [], false, 3, 3, "uA", "orgA"⟩], [], [], []⟩ "uA").1 = .ok q →
        q ∈ ([⟨"p1", "P", [], false, 5, 5, "uA", "orgA"⟩,
              ⟨"p2", "Q", [], false, 3, 3, "uA", "orgA"⟩] : List Pipeline) ∧
        q.organizationId = "orgA" ∧
        ∀ p ∈ ([⟨"p1", "P", [], false, 5, 5, "uA", "orgA"⟩,
                ⟨"p2", "Q", [], false, 3, 3, "uA", "orgA"⟩] : List Pipeline),
          p.organizationId = "orgA" → q.createdAt ≤ p.createdAt)) ∧
    ((pipelineGetDefault
        ⟨[⟨"orgA"⟩], [⟨"uA", "orgA"⟩], [],
         [⟨"p1", "P", [], false, 5, 5, "uA", "orgA"⟩,
          ⟨"p2", "Q", [], false, 3, 3, "uA", "orgA"⟩], [], [], []⟩ "uA").1 =
        .error (.notFound "No pipeline found for this organization") ↔
      ∀ p ∈ ([⟨"p1", "P", [], false, 5, 5, "uA", "orgA"⟩,
              ⟨"p2", "Q", [], false, 3, 3, "uA", "orgA"⟩] : List Pipeline),
        p.organizationId ≠ "orgA") :=
  c10_get_default_pipeline
    ⟨[⟨"orgA"⟩], [⟨"uA", "orgA"⟩], [],
     [⟨"p1", "P", [], false, 5, 5, "uA", "orgA"⟩,
      ⟨"p2", "Q", [], false, 3, 3, "uA", "orgA"⟩], [], [], []⟩ "uA" _ rfl

/-- The customer listing sort is a permutation of its input. -/
theorem sortCustomersDesc_perm (l : List Customer) :
    List.Perm (sortCustomersDesc l) l :=
  @List.perm_insertionSort Customer _
    (fun x y => Nat.decLe y.createdAt x.createdAt) l

/-- The contact-history sort is a permutation of its input. -/
theorem sortChDesc_perm (l : List ContactHistory) :
    List.Perm (sortChDesc l) l :=
  @List.perm_insertionSort ContactHistory _
    (fun x y => Nat.decLe y.createdAt x.createdAt) l

/-- The contact-history sort orders rows by descending `createdAt`. -/
theorem sortChDesc_sorted (l : List ContactHistory) :
    List.Sorted (fun a b => b.createdAt ≤ a.createdAt) (sortChDesc l) :=
  @List.sorted_insertionSort ContactHistory _
    (fun x y => Nat.decLe y.createdAt x.createdAt)
    ⟨fun a b => Nat.le_total b.createdAt a.createdAt⟩
    ⟨fun _ _ _ h1 h2 => Nat.le_trans h2 h1⟩ l

/-- A `find?` that must return the designated row: the row is a member,
satisfies the predicate, and every satisfying member is that row. -/
theorem find?_eq_of_unique {α : Type} (p : α → Bool) (l : List α) (a : α)
    (hmem : a ∈ l) (hp : p a = true)
    (huniq : ∀ x ∈ l, p x = true → x = a) : l.find? p = some a := by
  rcases hf : l.find? p with _ | x
  · rw [List.find?_eq_none] at hf
    exact absurd hp (hf a hmem)
  · rw [huniq x (List.mem_of_find?_eq_some hf) (List.find?_some hf)]

/-- C6: an update request on an existing in-tenant entity carrying zero
recognized updatable fields is a pure no-op for each of the four update
operations: the call returns the current row and the database state is
returned unchanged (so every field, `updatedAt` included, is identical
before and after).  The referential hypotheses (`hdown`, `hdpl`, `hhcr`)
mirror the schema's foreign keys that the no-op re-read joins through;
`h*uniq` states primary-key uniqueness of the addressed id. -/
theorem c6_empty_update_is_noop
    (db : DB) (now : Nat) (callerId cid did tid chid : String) (u : User)
    (hu : findUser db callerId = some u)
    (creq : CustomerUpdateReq) (c0 : Customer)
    (hcex : db.customers.find? (fun c => c.id == cid &&
      customerVisible u.organizationId c) = some c0)
    (hcuniq : ∀ c' ∈ db.customers, c'.id = cid → c' = c0)
    (hc1 : creq.firstName = none) (hc2 : creq.lastName = none)
    (hc3 : creq.email = none) (hc4 : creq.phone = none)
    (hc5 : creq.company = none) (hc6 : creq.tags = none)
    (hc7 : creq.customFields = none)
    (dreq : DealUpdateReq) (d0 : Deal)
    (hdex : db.deals.find? (fun d => d.id == did &&
      db.customers.any (fun c => c.id == d.customerId &&
        c.organizationId == u.organizationId)) = some d0)
    (hduniq : ∀ d' ∈ db.deals, d'.id = did → d' = d0)
    (hdown : db.users.any (fun uu => uu.id == d0.ownerId) = true)
    (hdpl : db.pipelines.any (fun p => p.id == d0.pipelineId) = true)
    (hd1 : dreq.title = none) (hd2 : dreq.value = none)
    (hd3 : dreq.currency = none) (hd4 : dreq.expectedCloseDate = none)
    (hd5 : dreq.actualCloseDate = none) (hd6 : dreq.probability = none)
    (hd7 : dreq.stageId = none) (hd8 : dreq.notes = none)
    (hd9 : dreq.products = none)
    (treq : TaskUpdateReq) (t0 : Task)
    (htex : db.tasks.find? (fun t => t.id == tid &&
      taskJoinScoped db u.organizationId t) = some t0)
    (htuniq : ∀ t' ∈ db.tasks, t'.id = tid → t' = t0)
    (ht1 : treq.title = none) (ht2 : treq.description = none)
    (ht3 : treq.priority = none) (ht4 : treq.status = none)
    (ht5 : treq.dueDate = none) (ht6 : treq.assigneeId = none)
    (ht7 : treq.relatedCustomerId = none) (ht8 : treq.relatedDealId = none)
    (ht9 : treq.timeSpent = none)
    (hreq : ChUpdateReq) (ch0 : ContactHistory)
    (hhex : db.contactHistory.find? (fun ch => ch.id == chid &&
      db.customers.any (fun c => c.id == ch.customerId &&
        c.organizationId == u.organizationId)) = some ch0)
    (hhuniq : ∀ e ∈ db.contactHistory, e.id = chid → e = ch0)
    (hhcr : db.users.any (fun uu => uu.id == ch0.createdBy) = true)
    (hh1 : hreq.subject = none) (hh2 : hreq.body = none)
    (hh3 : hreq.duration = none) (hh4 : hreq.attachments = none)
    (hh5 : hreq.aiSummary = none) :
    customerUpdate db now callerId cid creq = (.ok (some c0), db) ∧
    dealUpdate db now callerId did dreq = (.ok (some d0), db) ∧
    taskUpdate db now callerId tid treq = (.ok (some t0), db) ∧
    chUpdate db callerId chid hreq = (.ok (some ch0), db) := by
  refine ⟨?_, ?_, ?_, ?_⟩
  · have hcid : c0.id = cid := by
      have := List.find?_some hcex
      simp only [Bool.and_eq_true, beq_iff_eq] at this
      exact this.1
    have hfetch : db.customers.find? (fun c => c.id == cid) = some c0 :=
      find?_eq_of_unique _ _ c0 (List.mem_of_find?_eq_some hcex)
        (by simp [hcid])
        (fun x hx hpx => hcuniq x hx (by simpa using hpx))
    have hhas : customerHasUpdates creq = false := by
      simp [customerHasUpdates, hc1, hc2, hc3, hc4, hc5, hc6, hc7]
    simp only [customerUpdate, hu, hcex, hc3, hhas, Bool.false_eq_true,
      if_false, hfetch]
  · have hdid : d0.id = did := by
      have := List.find?_some hdex
      simp only [Bool.and_eq_true, beq_iff_eq] at this
      exact this.1
    have hdcust : db.customers.any (fun c => c.id == d0.customerId) = true := by
      have := List.find?_some hdex
      simp only [Bool.and_eq_true] at this
      rcases List.any_eq_true.1 this.2 with ⟨c, hcm, hcp⟩
      simp only [Bool.and_eq_true, beq_iff_eq] at hcp
      exact List.any_eq_true.2 ⟨c, hcm, by simp [hcp.1]⟩
    have hfetch : db.deals.find? (fun d => d.id == did && dealJoinBare db d) = some d0 :=
      find?_eq_of_unique _ _ d0 (List.mem_of_find?_eq_some hdex)
        (by simp [hdid, dealJoinBare, hdcust, hdown, hdpl])
        (fun x hx hpx => hduniq x hx (by
          simp only [Bool.and_eq_true, beq_iff_eq] at hpx
          exact hpx.1))
    have hhas : dealHasUpdates dreq = false := by
      simp [dealHasUpdates, hd1, hd2, hd3, hd4, hd5, hd6, hd7, hd8, hd9]
    have hsb : jsTruthy dreq.stageId = false := by
      simp [jsTruthy, hd7]
    simp only [dealUpdate, hu, hdex, hsb, Bool.false_and, Bool.false_eq_true,
      if_false, hd6, hhas, hfetch]
  · have htid0 : t0.id = tid := by
      have := List.find?_some htex
      simp only [Bool.and_eq_true, beq_iff_eq] at this
      exact this.1
    have htass : db.users.any (fun uu => uu.id == t0.assigneeId) = true := by
      have := List.find?_some htex
      simp only [Bool.and_eq_true] at this
      rcases List.any_eq_true.1 this.2 with ⟨uu, hum, hup⟩
      simp only [Bool.and_eq_true, beq_iff_eq] at hup
      exact List.any_eq_true.2 ⟨uu, hum, by simp [hup.1]⟩
    have hfetch : db.tasks.find? (fun t => t.id == tid && taskJoinBare db t) = some t0 :=
      find?_eq_of_unique _ _ t0 (List.mem_of_find?_eq_some htex)
        (by simp [htid0, taskJoinBare, htass])
        (fun x hx hpx => htuniq x hx (by
          simp only [Bool.and_eq_true, beq_iff_eq] at hpx
          exact hpx.1))
    have hhas : taskHasUpdates treq = false := by
      simp [taskHasUpdates, ht1, ht2, ht3, ht4, ht5, ht6, ht7, ht8, ht9]
    have hag : jsTruthy treq.assigneeId = false := by
      simp [jsTruthy, ht6]
    have hcg : jsTruthy (treq.relatedCustomerId.getD none) = false := by
      simp [jsTruthy, ht7]
    simp only [taskUpdate, hu, htex, hag, hcg, Bool.false_and,
      Bool.false_eq_true, if_false, hhas, hfetch]
  · have hchid : ch0.id = chid := by
      have := List.find?_some hhex
      simp only [Bool.and_eq_true, beq_iff_eq] at this
      exact this.1
    have hchc : db.customers.any (fun c => c.id == ch0.customerId) = true := by
      have := List.find?_some hhex
      simp only [Bool.and_eq_true] at this
      rcases List.any_eq_true.1 this.2 with ⟨c, hcm, hcp⟩
      simp only [Bool.and_eq_true, beq_iff_eq] at hcp
      exact List.any_eq_true.2 ⟨c, hcm, by simp [hcp.1]⟩
    have hfetch : db.contactHistory.find? (fun ch => ch.id == chid &&
        chJoinBare db ch) = some ch0 :=
      find?_eq_of_unique _ _ ch0 (List.mem_of_find?_eq_some hhex)
        (by simp [hchid, chJoinBare, hchc, hhcr])
        (fun x hx hpx => hhuniq x hx (by
          simp only [Bool.and_eq_true, beq_iff_eq] at hpx
          exact hpx.1))
    have hhas : chHasUpdates hreq = false := by
      simp [chHasUpdates, hh1, hh2, hh3, hh4, hh5]
    simp only [chUpdate, hu, hhex, hhas, Bool.false_eq_true, if_false, hfetch]

/-- Witness for C6 at the concrete sample state: empty update payloads on
the in-tenant customer, deal, task and contact-history rows return each row
and leave the database exactly as it was. -/
theorem c6_empty_update_is_noop_witness :
    customerUpdate wDB 9 "uA" "cA" {} = (.ok (some wCustA), wDB) ∧
    dealUpdate wDB 9 "uA" "dA" {} = (.ok (some wDealA), wDB) ∧
    taskUpdate wDB 9 "uA" "tA" {} = (.ok (some wTaskA), wDB) ∧
    chUpdate wDB "uA" "hA" {} = (.ok (some wChA), wDB) :=
  c6_empty_update_is_noop wDB 9 "uA" "cA" "dA" "tA" "hA" wUserA rfl
    {} wCustA rfl (by decide) rfl rfl rfl rfl rfl rfl rfl
    {} wDealA rfl (by decide) rfl rfl rfl rfl rfl rfl rfl rfl rfl rfl rfl
    {} wTaskA rfl (by decide) rfl rfl rfl rfl rfl rfl rfl rfl rfl
    {} wChA rfl (by decide) rfl rfl rfl rfl rfl rfl

/-- C7: soft-deleting a live in-tenant customer succeeds; afterwards every
row with that id still sits in the customers table with `deletedAt` set to
the deletion time (the row is retained), the customer-list operation no
longer returns it, and get-by-id fails with `NotFound`. -/
theorem c7_soft_delete_hides_customer
    (db : DB) (now : Nat) (callerId cid : String) (u : User)
    (hu : findUser db callerId = some u)
    (c0 : Customer) (hc : c0 ∈ db.customers) (hid : c0.id = cid)
    (horg : c0.organizationId = u.organizationId) (hlive : c0.deletedAt = none)
    (huniq : ∀ c' ∈ db.customers, c'.id = cid → c' = c0) :
    (customerDelete db now callerId cid).1 = .ok () ∧
    (∀ c' ∈ (customerDelete db now callerId cid).2.customers,
      c'.id = cid → c'.deletedAt = some now) ∧
    (∃ c' ∈ (customerDelete db now callerId cid).2.customers, c'.id = cid) ∧
    (∀ l, (customerGetAll (customerDelete db now callerId cid).2 callerId).1 = .ok l →
      ∀ x ∈ l, x.id ≠ cid) ∧
    (customerGetById (customerDelete db now callerId cid).2 callerId cid).1 =
      .error (.notFound "Customer not found") := by
  have hhit : (c0.id == cid && customerVisible u.organizationId c0) = true := by
    simp [hid, horg, hlive, customerVisible]
  have hany : db.customers.any (fun c => c.id == cid &&
      customerVisible u.organizationId c) = true :=
    List.any_eq_true.2 ⟨c0, hc, hhit⟩
  have hstep : customerDelete db now callerId cid =
      (.ok (), { db with
                 customers := db.customers.map
                   (fun c => if (c.id == cid && customerVisible u.organizationId c) = true
                     then customerSoftDeleted now c else c) }) := by
    simp only [customerDelete, hu]
    rw [if_pos hany]
  have hdel2 : ∀ c' ∈ (customerDelete db now callerId cid).2.customers,
      c'.id = cid → c'.deletedAt = some now := by
    intro c' hc' hcid'
    rw [hstep] at hc'
    rcases List.mem_map.1 hc' with ⟨c, hcm, rfl⟩
    by_cases hh : (c.id == cid && customerVisible u.organizationId c) = true
    · rw [if_pos hh]
      rfl
    · rw [if_neg hh] at hcid' ⊢
      exact absurd (huniq c hcm hcid' ▸ hhit) hh
  refine ⟨?_, hdel2, ?_, ?_, ?_⟩
  · rw [hstep]
  · refine ⟨customerSoftDeleted now c0, ?_, hid⟩
    rw [hstep]
    exact List.mem_map.2 ⟨c0, hc, by rw [if_pos hhit]⟩
  · intro l hl x hx hxid
    rw [hstep] at hl
    simp only [customerGetAll, findUser] at hl
    have hu' : db.users.find? (fun uu => uu.id == callerId) = some u := hu
    rw [hu'] at hl
    simp only [Except.ok.injEq] at hl
    subst hl
    have hxmem := (sortCustomersDesc_perm _).mem_iff.1 hx
    have hxf := List.of_mem_filter hxmem
    have hxm := List.mem_of_mem_filter hxmem
    have hxdel := hdel2 x (by rw [hstep]; exact hxm) hxid
    simp only [customerVisible, Bool.and_eq_true] at hxf
    rw [hxdel] at hxf
    simp at hxf
  · rw [hstep]
    simp only [customerGetById, findUser]
    have hu' : db.users.find? (fun uu => uu.id == callerId) = some u := hu
    have hnone : (db.customers.map
        (fun c => if (c.id == cid && customerVisible u.organizationId c) = true
          then customerSoftDeleted now c else c)).find?
        (fun c => c.id == cid && customerVisible u.organizationId c) = none := by
      rw [List.find?_eq_none]
      intro x hx
      rcases List.mem_map.1 hx with ⟨c, hcm, rfl⟩
      by_cases hh : (c.id == cid && customerVisible u.organizationId c) = true
      · rw [if_pos hh]
        simp [customerSoftDeleted, customerVisible]
      · rw [if_neg hh]
        exact hh
    simp only [hu', hnone]

/-- Witness for C7 at the concrete sample state: organization A's caller
soft-deletes customer "cA". -/
theorem c7_soft_delete_hides_customer_witness :
    (customerDelete wDB 9 "uA" "cA").1 = .ok () ∧
    (∀ c' ∈ (customerDelete wDB 9 "uA" "cA").2.customers,
      c'.id = "cA" → c'.deletedAt = some 9) ∧
    (∃ c' ∈ (customerDelete wDB 9 "uA" "cA").2.customers, c'.id = "cA") ∧
    (∀ l, (customerGetAll (customerDelete wDB 9 "uA" "cA").2 "uA").1 = .ok l →
      ∀ x ∈ l, x.id ≠ "cA") ∧
    (customerGetById (customerDelete wDB 9 "uA" "cA").2 "uA" "cA").1 =
      .error (.notFound "Customer not found") :=
  c7_soft_delete_hides_customer wDB 9 "uA" "cA" wUserA rfl wCustA
    (by decide) rfl rfl rfl (by decide)

/-- C4 (counterexample): the claim as stated is false.  Deal "dA" of
organization A lives in pipeline `wPipeA` (stage ids "1", "2"); the empty
string "" is a stage id of organization B's pipeline `wPipeB` and is not a
member of `wPipeA`'s stage list, yet updating the deal with
`stageId := ""` succeeds and stores "" — `if (stageId)` treats the empty
string as falsy and skips the membership check entirely. -/
theorem c4_cross_org_stage_counterexample :
    (wPipeB.stages.map Stage.id = ["9", ""]) ∧
    (wPipeA.stages.map Stage.id = ["1", "2"]) ∧
    ((dealUpdate wDB 9 "uA" "dA" { stageId := some "" }).1 =
      .ok (some ⟨"dA", "cA", "pA", "", "T", 5, "USD", none, none, 0, none,
        "[]", "uA", 1, 9⟩)) ∧
    ((dealUpdate wDB 9 "uA" "dA" { stageId := some "" }).2.deals.map
      (fun d => (d.id, d.stageId)) = [("dA", ""), ("dB", "9")]) :=
  ⟨rfl, rfl, rfl, rfl⟩

/-- C4 (amended): for every deal-update request supplying a non-empty
`stageId` that is not a member of the deal's own pipeline's stage list
(in particular any real stage id taken from a different organization's
pipeline), the update fails with `ValidationError` and the state — hence
the deal's `stageId` — is unchanged.  A supplied empty-string `stageId`
bypasses the membership check and is stored verbatim (see the
counterexample). -/
theorem c4_cross_org_stage_rejected
    (db : DB) (now : Nat) (callerId did : String) (u : User)
    (hu : findUser db callerId = some u)
    (d0 : Deal)
    (hex : db.deals.find? (fun d => d.id == did &&
      db.customers.any (fun c => c.id == d.customerId &&
        c.organizationId == u.organizationId)) = some d0)
    (req : DealUpdateReq) (s : String)
    (hs : req.stageId = some s) (hne : s ≠ "")
    (p0 : Pipeline)
    (hp : db.pipelines.find? (fun p => p.id == d0.pipelineId) = some p0)
    (hnotmem : p0.stages.any (fun st => st.id == s) = false) :
    dealUpdate db now callerId did req =
      (.error (.validationError "Invalid stage ID for this pipeline"), db) := by
  have hne' : (s == "") = false := by simpa using hne
  simp only [dealUpdate, hu, hex, hs, jsTruthy, hne', Bool.not_false,
    Bool.true_and, hp, Option.getD_some, hnotmem, if_true]

/-- Witness for the amended C4: stage id "9" is taken from organization B's
pipeline `wPipeB`, the caller of organization A updates its own deal "dA";
the id is not in `wPipeA`'s stage list, so the update is rejected with the
state unchanged. -/
theorem c4_cross_org_stage_rejected_witness :
    dealUpdate wDB 9 "uA" "dA" { stageId := some "9" } =
      (.error (.validationError "Invalid stage ID for this pipeline"), wDB) :=
  c4_cross_org_stage_rejected wDB 9 "uA" "dA" wUserA rfl wDealA rfl
    { stageId := some "9" } "9" rfl (by decide) wPipeA rfl rfl

/-- Splitting a list into limit-2/offset-2i windows and concatenating the
windows reproduces the list. -/
theorem flatten_chunks2 {α : Type} : ∀ l : List α,
    ((List.range ((l.length + 1) / 2)).map
      (fun i => (l.drop (2 * i)).take 2)).flatten = l
  | [] => by simp
  | [a] => by
      have h1 : ([a].length + 1) / 2 = 1 := by norm_num
      have h2 : List.range 1 = [0] := by decide
      rw [h1, h2]
      rfl
  | a :: b :: t => by
      have ih := flatten_chunks2 t
      have harith : ((a :: b :: t).length + 1) / 2 = (t.length + 1) / 2 + 1 := by
        simp only [List.length_cons]
        omega
      rw [harith, List.range_succ_eq_map, List.map_cons, List.flatten_cons,
        List.map_map]
      have hfun : ((fun i => ((a :: b :: t).drop (2 * i)).take 2) ∘ Nat.succ)
          = (fun i => (t.drop (2 * i)).take 2) := by
        funext i
        simp only [Function.comp_apply]
        have h2 : 2 * (i + 1) = 2 * i + 1 + 1 := by ring
        rw [Nat.succ_eq_add_one, h2, List.drop_succ_cons, List.drop_succ_cons]
      rw [hfun, ih]
      rfl

/-- C8: with a fixed filter set and unchanged state, every
`limit`/`offset` window of the contact-history listing is the
corresponding window of the full filtered result; concatenating the
limit-2 windows at offsets 0, 2, 4, … yields exactly the full result set
(no duplicates, no omissions), and that full set is ordered by creation
time descending. -/
theorem c8_pagination_covers_list
    (db : DB) (callerId : String) (u : User)
    (hu : findUser db callerId = some u) (customerIdF typeF : Option String) :
    (∀ limit offset, (chGetAll db callerId customerIdF typeF limit offset).1 =
      .ok (((chFullList db u.organizationId customerIdF typeF).drop offset).take limit)) ∧
    ((List.range (((chFullList db u.organizationId customerIdF typeF).length + 1) / 2)).map
      (fun i => pageOf (chGetAll db callerId customerIdF typeF 2 (2 * i)).1)).flatten =
      chFullList db u.organizationId customerIdF typeF ∧
    List.Sorted (fun a b => b.createdAt ≤ a.createdAt)
      (chFullList db u.organizationId customerIdF typeF) := by
  have hpage : ∀ limit offset, (chGetAll db callerId customerIdF typeF limit offset).1 =
      .ok (((chFullList db u.organizationId customerIdF typeF).drop offset).take limit) := by
    intro limit offset
    simp only [chGetAll, hu]
  refine ⟨hpage, ?_, sortChDesc_sorted _⟩
  have hpage2 : ∀ i : Nat, pageOf (chGetAll db callerId customerIdF typeF 2 (2 * i)).1 =
      ((chFullList db u.organizationId customerIdF typeF).drop (2 * i)).take 2 := by
    intro i
    rw [hpage]
    rfl
  simp only [hpage2]
  exact flatten_chunks2 _

/-- Witness for C8 at the concrete sample state: the org-A caller pages its
single-entry contact history with limit 2. -/
theorem c8_pagination_covers_list_witness :
    (∀ limit offset, (chGetAll wDB "uA" none none limit offset).1 =
      .ok (((chFullList wDB "orgA" none none).drop offset).take limit)) ∧
    ((List.range (((chFullList wDB "orgA" none none).length + 1) / 2)).map
      (fun i => pageOf (chGetAll wDB "uA" none none 2 (2 * i)).1)).flatten =
      chFullList wDB "orgA" none none ∧
    List.Sorted (fun a b => b.createdAt ≤ a.createdAt)
      (chFullList wDB "orgA" none none) :=
  c8_pagination_covers_list wDB "uA" wUserA rfl none none

/-- C1: tenant isolation.  For a resolvable caller of organization A and an
addressed id whose rows (in each entity table) all belong to other
organizations — a customer/pipeline row with a foreign `organizationId`, a
deal/contact-history row whose customer is foreign, a task whose assignee
is foreign — every get/update/delete-by-id operation of the five
tenant-scoped entities fails with `NotFound`.  The error value carries only
the message string, so no row data is returned. -/
theorem c1_cross_tenant_not_found
    (db : DB) (now : Nat) (callerId rid : String) (u : User)
    (hu : findUser db callerId = some u)
    (creq : CustomerUpdateReq) (dreq : DealUpdateReq) (treq : TaskUpdateReq)
    (hreq : ChUpdateReq)
    (hcf : ∀ c ∈ db.customers, c.id = rid → c.organizationId ≠ u.organizationId)
    (hdf : ∀ d ∈ db.deals, d.id = rid → ∀ c ∈ db.customers,
      c.id = d.customerId → c.organizationId ≠ u.organizationId)
    (hpf : ∀ p ∈ db.pipelines, p.id = rid → p.organizationId ≠ u.organizationId)
    (htf : ∀ t ∈ db.tasks, t.id = rid → ∀ uu ∈ db.users,
      uu.id = t.assigneeId → uu.organizationId ≠ u.organizationId)
    (hhf : ∀ e ∈ db.contactHistory, e.id = rid → ∀ c ∈ db.customers,
      c.id = e.customerId → c.organizationId ≠ u.organizationId) :
    (customerGetById db callerId rid).1 = .error (.notFound "Customer not found") ∧
    customerUpdate db now callerId rid creq =
      (.error (.notFound "Customer not found"), db) ∧
    (customerDelete db now callerId rid).1 = .error (.notFound "Customer not found") ∧
    (dealGetById db callerId rid).1 = .error (.notFound "Deal not found") ∧
    (dealUpdate db now callerId rid dreq).1 = .error (.notFound "Deal not found") ∧
    (dealDelete db callerId rid).1 = .error (.notFound "Deal not found") ∧
    (pipelineGetById db callerId rid).1 = .error (.notFound "Pipeline not found") ∧
    (taskGetById db callerId rid).1 = .error (.notFound "Task not found") ∧
    (taskUpdate db now callerId rid treq).1 = .error (.notFound "Task not found") ∧
    (taskDelete db callerId rid).1 = .error (.notFound "Task not found") ∧
    (chGetById db callerId rid).1 =
      .error (.notFound "Contact history entry not found") ∧
    (chUpdate db callerId rid hreq).1 =
      .error (.notFound "Contact history entry not found") ∧
    (chDelete db callerId rid).1 =
      .error (.notFound "Contact history entry not found") := by
  have hcp : ∀ c ∈ db.customers,
      ¬ (c.id == rid && customerVisible u.organizationId c) = true := by
    intro c hcm hpred
    simp only [customerVisible, Bool.and_eq_true, beq_iff_eq] at hpred
    exact hcf c hcm hpred.1 hpred.2.1
  have hfc : db.customers.find?
      (fun c => c.id == rid && customerVisible u.organizationId c) = none :=
    List.find?_eq_none.2 hcp
  have hanyc : db.customers.any
      (fun c => c.id == rid && customerVisible u.organizationId c) = false := by
    rw [List.any_eq_false]
    exact hcp
  have hdp : ∀ d ∈ db.deals,
      ¬ (d.id == rid && dealJoinScoped db u.organizationId d) = true := by
    intro d hdm hpred
    simp only [dealJoinScoped, Bool.and_eq_true, beq_iff_eq,
      List.any_eq_true] at hpred
    obtain ⟨hdid, ⟨⟨⟨c, hcm, hcpred⟩, _⟩, _⟩, _⟩ := hpred
    exact hdf d hdm hdid c hcm hcpred.1.1 hcpred.1.2
  have hfd : db.deals.find?
      (fun d => d.id == rid && dealJoinScoped db u.organizationId d) = none :=
    List.find?_eq_none.2 hdp
  have hdp2 : ∀ d ∈ db.deals, ¬ (d.id == rid &&
      db.customers.any (fun c => c.id == d.customerId &&
        c.organizationId == u.organizationId)) = true := by
    intro d hdm hpred
    simp only [Bool.and_eq_true, beq_iff_eq, List.any_eq_true] at hpred
    obtain ⟨hdid, c, hcm, hcpred⟩ := hpred
    exact hdf d hdm hdid c hcm hcpred.1 hcpred.2
  have hfd2 : db.deals.find? (fun d => d.id == rid &&
      db.customers.any (fun c => c.id == d.customerId &&
        c.organizationId == u.organizationId)) = none :=
    List.find?_eq_none.2 hdp2
  have hanyd : db.deals.any (fun d => d.id == rid &&
      db.customers.any (fun c => c.id == d.customerId &&
        c.organizationId == u.organizationId)) = false := by
    rw [List.any_eq_false]
    exact hdp2
  have hfp : db.pipelines.find?
      (fun p => p.id == rid && p.organizationId == u.organizationId) = none := by
    rw [List.find?_eq_none]
    intro p hpm hpred
    simp only [Bool.and_eq_true, beq_iff_eq] at hpred
    exact hpf p hpm hpred.1 hpred.2
  have htp : ∀ t ∈ db.tasks,
      ¬ (t.id == rid && taskJoinScoped db u.organizationId t) = true := by
    intro t htm hpred
    simp only [taskJoinScoped, Bool.and_eq_true, beq_iff_eq,
      List.any_eq_true] at hpred
    obtain ⟨htid, uu, hum, hupred⟩ := hpred
    exact htf t htm htid uu hum hupred.1 hupred.2
  have hft : db.tasks.find?
      (fun t => t.id == rid && taskJoinScoped db u.organizationId t) = none :=
    List.find?_eq_none.2 htp
  have hanyt : db.tasks.any
      (fun t => t.id == rid && taskJoinScoped db u.organizationId t) = false := by
    rw [List.any_eq_false]
    exact htp
  have hhp : ∀ e ∈ db.contactHistory,
      ¬ (e.id == rid && chJoinScoped db u.organizationId e) = true := by
    intro e hem hpred
    simp only [chJoinScoped, Bool.and_eq_true, beq_iff_eq,
      List.any_eq_true] at hpred
    obtain ⟨heid, ⟨c, hcm, hcpred⟩, _⟩ := hpred
    exact hhf e hem heid c hcm hcpred.1.1 hcpred.1.2
  have hfh : db.contactHistory.find?
      (fun e => e.id == rid && chJoinScoped db u.organizationId e) = none :=
    List.find?_eq_none.2 hhp
  have hhp2 : ∀ e ∈ db.contactHistory, ¬ (e.id == rid &&
      db.customers.any (fun c => c.id == e.customerId &&
        c.organizationId == u.organizationId)) = true := by
    intro e hem hpred
    simp only [Bool.and_eq_true, beq_iff_eq, List.any_eq_true] at hpred
    obtain ⟨heid, c, hcm, hcpred⟩ := hpred
    exact hhf e hem heid c hcm hcpred.1 hcpred.2
  have hfh2 : db.contactHistory.find? (fun e => e.id == rid &&
      db.customers.any (fun c => c.id == e.customerId &&
        c.organizationId == u.organizationId)) = none :=
    List.find?_eq_none.2 hhp2
  have hanyh : db.contactHistory.any (fun e => e.id == rid &&
      db.customers.any (fun c => c.id == e.customerId &&
        c.organizationId == u.organizationId)) = false := by
    rw [List.any_eq_false]
    exact hhp2
  refine ⟨?_, ?_, ?_, ?_, ?_, ?_, ?_, ?_, ?_, ?_, ?_, ?_, ?_⟩
  · simp only [customerGetById, hu, hfc]
  · simp only [customerUpdate, hu, hfc]
  · simp only [customerDelete, hu, hanyc, Bool.false_eq_true, if_false]
  · simp only [dealGetById, hu, hfd]
  · simp only [dealUpdate, hu, hfd2]
  · simp only [dealDelete, hu, hanyd, Bool.false_eq_true, if_false]
  · simp only [pipelineGetById, hu, hfp]
  · simp only [taskGetById, hu, hft]
  · simp only [taskUpdate, hu, hft]
  · simp only [taskDelete, hu, hanyt, Bool.false_eq_true, if_false]
  · simp only [chGetById, hu, hfh]
  · simp only [chUpdate, hu, hfh2]
  · simp only [chDelete, hu, hanyh, Bool.false_eq_true, if_false]

/-- Witness for C1 at the concrete sample state `wDB2`: the org-A caller
addresses the id "f1", carried only by organization-B rows, in all five
entities and all thirteen operations. -/
theorem c1_cross_tenant_not_found_witness :
    (customerGetById wDB2 "uA" "f1").1 = .error (.notFound "Customer not found") ∧
    customerUpdate wDB2 9 "uA" "f1" {} =
      (.error (.notFound "Customer not found"), wDB2) ∧
    (customerDelete wDB2 9 "uA" "f1").1 = .error (.notFound "Customer not found") ∧
    (dealGetById wDB2 "uA" "f1").1 = .error (.notFound "Deal not found") ∧
    (dealUpdate wDB2 9 "uA" "f1" {}).1 = .error (.notFound "Deal not found") ∧
    (dealDelete wDB2 "uA" "f1").1 = .error (.notFound "Deal not found") ∧
    (pipelineGetById wDB2 "uA" "f1").1 = .error (.notFound "Pipeline not found") ∧
    (taskGetById wDB2 "uA" "f1").1 = .error (.notFound "Task not found") ∧
    (taskUpdate wDB2 9 "uA" "f1" {}).1 = .error (.notFound "Task not found") ∧
    (taskDelete wDB2 "uA" "f1").1 = .error (.notFound "Task not found") ∧
    (chGetById wDB2 "uA" "f1").1 =
      .error (.notFound "Contact history entry not found") ∧
    (chUpdate wDB2 "uA" "f1" {}).1 =
      .error (.notFound "Contact history entry not found") ∧
    (chDelete wDB2 "uA" "f1").1 =
      .error (.notFound "Contact history entry not found") :=
  c1_cross_tenant_not_found wDB2 9 "uA" "f1" ⟨"uA", "orgA"⟩ rfl {} {} {} {}
    (by decide) (by decide) (by decide) (by decide) (by decide)

end CRM
